import Mathlib

/-!
Verification development for the vad-node-realtime streaming VAD core.

The stream orchestrator (class RealTimeVAD of the source) is embedded
directly from the source file.  The FrameProcessor, the Resampler and the
Silero model wrapper are not part of the provided sources (only their
callers and interfaces are), so they are modelled from the specification,
as indicated on each definition.

Samples and probabilities are embedded as rationals; machine floats do not
matter for any of the structural properties proved here.  The async-await
code of the orchestrator awaits every model call before proceeding, so it
is embedded in direct style: each operation returns its successor state
together with the ordered list of callback invocations it performed.
-/

namespace VadNode

/-- Pair of per-frame probabilities returned by the model
(source: SpeechProbabilities of src/common). -/
structure SpeechProbabilities where
  isSpeech : Rat
  notSpeech : Rat
deriving DecidableEq, Repr

/-- The message tags an event from the frame processor can carry
(source: Message enum of src/common). -/
inductive Message where
  | speechStart
  | speechRealStart
  | speechEnd
  | vadMisfire
deriving DecidableEq, Repr

/-- Configuration consumed by the frame processor
(source: FrameProcessorOptions of src/common). -/
structure FrameProcessorOptions where
  frameSamples : Nat
  positiveSpeechThreshold : Rat
  negativeSpeechThreshold : Rat
  redemptionFrames : Nat
  preSpeechPadFrames : Nat
  minSpeechFrames : Nat
  submitUserSpeechOnPause : Bool
deriving DecidableEq, Repr

/-- Full options of the stream orchestrator: frame-processor options plus
the native input sample rate (source: RealTimeVADOptions of part_000). -/
structure RealTimeVADOptions extends FrameProcessorOptions where
  sampleRate : Nat
deriving DecidableEq, Repr

/-- Modelled from the spec: the external Silero model interface of section 6.
`step` is the stateful `process` call returning the probabilities and the next
internal state; `initState` is the state restored by `reset_state` (t = 0).
Making the model a parameter realises the arbitrary per-frame probabilities
that the properties quantify over. -/
structure SileroModel (M : Type) where
  initState : M
  step : M → List Rat → SpeechProbabilities × M

/-- Modelled from the spec: the frame-processor state names of section 3,
with the redemption state carrying its origin (true when the origin is
SpeakingConfirmed) and the remaining grace counter. -/
inductive FPMode where
  | idle
  | silence
  | speaking
  | confirmed
  | redemption (fromConfirmed : Bool) (counter : Nat)
deriving DecidableEq, Repr

/-- Whether the mode is one of the speech-in-progress states. -/
def FPMode.isInSpeech : FPMode → Bool
  | FPMode.speaking => true
  | FPMode.confirmed => true
  | FPMode.redemption _ _ => true
  | _ => false

/-- Modelled from the spec: the frame-processor state of section 3 - the
mode, the pre-roll ring, the segment accumulator, the monotone count of
speech frames in the segment, and the model inference state it drives. -/
structure FPState (M : Type) where
  mode : FPMode
  preRoll : List (List Rat)
  segment : List (List Rat)
  speechFrames : Nat
  modelState : M
deriving DecidableEq, Repr

/-- The event record a frame-processor operation returns to the
orchestrator; every field is optional (source: the Partial event argument
of RealTimeVAD.handleFrameProcessorEvent in part_000). -/
structure FPEvent where
  probs : Option SpeechProbabilities
  frame : Option (List Rat)
  msg : Option Message
  audio : Option (List Rat)
deriving DecidableEq, Repr

/-- The event with every field absent. -/
def emptyFPEvent : FPEvent :=
  { probs := none, frame := none, msg := none, audio := none }

/-- Modelled from the spec: pushing a frame into the bounded pre-roll ring,
evicting the oldest frames beyond the capacity (section 3, PreSpeechPad). -/
def pushRing (cap : Nat) (ring : List (List Rat)) (frame : List Rat) : List (List Rat) :=
  let r := ring ++ [frame]
  if cap < r.length then r.drop (r.length - cap) else r

/-- Modelled from the spec: FrameProcessor.resume of section 4.2 - clears
the ring, the accumulator and the counters, resets the model state and
enters Silence. -/
def FPState.resume {M : Type} (model : SileroModel M) (_s : FPState M) : FPState M :=
  { mode := FPMode.silence, preRoll := [], segment := [], speechFrames := 0,
    modelState := model.initState }

/-- Modelled from the spec: FrameProcessor.process of section 4.2.  Runs the
model on the frame, applies the transition table, and returns the next state
with the event record: the FrameProcessed fields are always present, plus at
most one message. -/
def FPState.process {M : Type} (opts : FrameProcessorOptions) (model : SileroModel M)
    (s : FPState M) (frame : List Rat) : FPState M × FPEvent :=
  let pr := model.step s.modelState frame
  let probs := pr.1
  let m2 := pr.2
  let p := probs.isSpeech
  let ev0 : FPEvent := { probs := some probs, frame := some frame, msg := none, audio := none }
  match s.mode with
  | FPMode.idle =>
      ({ s with modelState := m2 }, ev0)
  | FPMode.silence =>
      if opts.positiveSpeechThreshold ≤ p then
        ({ mode := FPMode.speaking, preRoll := [], segment := s.preRoll ++ [frame],
           speechFrames := 1, modelState := m2 },
         { ev0 with msg := some Message.speechStart })
      else
        ({ s with
             preRoll := pushRing opts.preSpeechPadFrames s.preRoll frame,
             modelState := m2 }, ev0)
  | FPMode.speaking =>
      if opts.positiveSpeechThreshold ≤ p then
        if opts.minSpeechFrames ≤ s.speechFrames + 1 then
          ({ s with
               mode := FPMode.confirmed, segment := s.segment ++ [frame],
               speechFrames := s.speechFrames + 1, modelState := m2 },
           { ev0 with msg := some Message.speechRealStart })
        else
          ({ s with
               segment := s.segment ++ [frame],
               speechFrames := s.speechFrames + 1, modelState := m2 }, ev0)
      else if p < opts.negativeSpeechThreshold then
        ({ s with
             mode := FPMode.redemption false opts.redemptionFrames,
             segment := s.segment ++ [frame], modelState := m2 }, ev0)
      else
        ({ s with segment := s.segment ++ [frame], modelState := m2 }, ev0)
  | FPMode.confirmed =>
      if opts.positiveSpeechThreshold ≤ p then
        ({ s with
             segment := s.segment ++ [frame],
             speechFrames := s.speechFrames + 1, modelState := m2 }, ev0)
      else if p < opts.negativeSpeechThreshold then
        ({ s with
             mode := FPMode.redemption true opts.redemptionFrames,
             segment := s.segment ++ [frame], modelState := m2 }, ev0)
      else
        ({ s with segment := s.segment ++ [frame], modelState := m2 }, ev0)
  | FPMode.redemption fromConfirmed counter =>
      if opts.positiveSpeechThreshold ≤ p then
        if fromConfirmed then
          ({ s with
               mode := FPMode.confirmed, segment := s.segment ++ [frame],
               modelState := m2 }, ev0)
        else if opts.minSpeechFrames ≤ s.speechFrames + 1 then
          ({ s with
               mode := FPMode.confirmed, segment := s.segment ++ [frame],
               speechFrames := s.speechFrames + 1, modelState := m2 },
           { ev0 with msg := some Message.speechRealStart })
        else
          ({ s with
               mode := FPMode.speaking, segment := s.segment ++ [frame],
               speechFrames := s.speechFrames + 1, modelState := m2 }, ev0)
      else if counter ≤ 1 then
        if opts.minSpeechFrames ≤ s.speechFrames then
          ({ mode := FPMode.silence, preRoll := [], segment := [], speechFrames := 0,
             modelState := model.initState },
           { ev0 with
               msg := some Message.speechEnd,
               audio := some (s.segment ++ [frame]).flatten })
        else
          ({ mode := FPMode.silence, preRoll := [], segment := [], speechFrames := 0,
             modelState := model.initState },
           { ev0 with msg := some Message.vadMisfire })
      else
        ({ s with
             mode := FPMode.redemption fromConfirmed (counter - 1),
             segment := s.segment ++ [frame], modelState := m2 }, ev0)

/-- Modelled from the spec: the terminal event computed by pause and
endSegment in section 4.2 - SpeechEnd with the accumulated audio when a
segment is in progress, submitUserSpeechOnPause is set and enough speech
frames were seen; VADMisfire when a segment is in progress but the minimum
was not met; no event otherwise. -/
def FPState.terminalEvent {M : Type} (opts : FrameProcessorOptions) (s : FPState M) : FPEvent :=
  if s.mode.isInSpeech then
    if opts.submitUserSpeechOnPause ∧ opts.minSpeechFrames ≤ s.speechFrames then
      { probs := none, frame := none, msg := some Message.speechEnd,
        audio := some (s.preRoll ++ s.segment).flatten }
    else if s.speechFrames < opts.minSpeechFrames then
      { probs := none, frame := none, msg := some Message.vadMisfire, audio := none }
    else emptyFPEvent
  else emptyFPEvent

/-- Modelled from the spec: FrameProcessor.pause of section 4.2 - emits the
terminal event and returns unconditionally to Idle, clearing the buffers. -/
def FPState.pauseOp {M : Type} (opts : FrameProcessorOptions) (s : FPState M) :
    FPState M × FPEvent :=
  ({ mode := FPMode.idle, preRoll := [], segment := [], speechFrames := 0,
     modelState := s.modelState }, s.terminalEvent opts)

/-- Modelled from the spec: FrameProcessor.endSegment of section 4.2 - the
same terminal logic as pause, but the state returns to Silence. -/
def FPState.endSegmentOp {M : Type} (opts : FrameProcessorOptions) (s : FPState M) :
    FPState M × FPEvent :=
  ({ mode := FPMode.silence, preRoll := [], segment := [], speechFrames := 0,
     modelState := s.modelState }, s.terminalEvent opts)

/-- Modelled from the spec: the Resampler of section 4.1 - its configuration
together with the rolling input buffer it keeps across calls. -/
structure Resampler where
  nativeSampleRate : Nat
  targetSampleRate : Nat
  targetFrameSize : Nat
  inputBuffer : List Rat
deriving DecidableEq, Repr

/-- Modelled from the spec: the number of input samples consumed per output
frame, ceil(targetFrameSize * nativeRate / targetRate) (section 4.1). -/
def Resampler.inputSamplesPerFrame (rs : Resampler) : Nat :=
  (rs.targetFrameSize * rs.nativeSampleRate + rs.targetSampleRate - 1) / rs.targetSampleRate

/-- Modelled from the spec: one output sample of the box filter of section
4.1 - average the input samples with integer indices from floor((k-1)r)+1 to
floor(kr), clamped to the window. -/
def boxSample (r : Rat) (window : List Rat) (k : Nat) : Rat :=
  let lo : Int := max 0 ((((k : Int) - 1) * r).floor + 1)
  let hi : Int := min ((window.length : Int) - 1) ((k : Rat) * r).floor
  if lo ≤ hi then
    let n := (hi - lo + 1).toNat
    (((List.range n).map fun i => window.getD (lo.toNat + i) 0).sum) / (n : Rat)
  else 0

/-- Modelled from the spec: one output frame of targetFrameSize samples
computed from one window of inputSamplesPerFrame input samples. -/
def Resampler.frameFor (rs : Resampler) (window : List Rat) : List Rat :=
  (List.range rs.targetFrameSize).map
    (boxSample ((rs.nativeSampleRate : Rat) / (rs.targetSampleRate : Rat)) window)

/-- Modelled from the spec: the framing loop of Resampler.process - while at
least inputSamplesPerFrame samples are buffered, consume them and emit one
frame; the residue stays in the buffer.  The loop consumes at least one
sample per iteration, so the length of the buffer bounds the number of
iterations and serves as structural fuel. -/
def resampleLoopAux (rs : Resampler) : Nat → List Rat → List (List Rat) × List Rat
  | 0, buf => ([], buf)
  | fuel + 1, buf =>
      if 0 < rs.inputSamplesPerFrame ∧ rs.inputSamplesPerFrame ≤ buf.length then
        let fr := rs.frameFor (buf.take rs.inputSamplesPerFrame)
        let rest := resampleLoopAux rs fuel (buf.drop rs.inputSamplesPerFrame)
        (fr :: rest.1, rest.2)
      else ([], buf)

/-- Modelled from the spec: Resampler.process / the stream variant with
identical semantics (section 4.1) - append the input to the rolling buffer
and emit as many frames as fit. -/
def Resampler.processBuf (rs : Resampler) (input : List Rat) :
    List (List Rat) × Resampler :=
  let r := resampleLoopAux rs (rs.inputBuffer ++ input).length (rs.inputBuffer ++ input)
  (r.1, { rs with inputBuffer := r.2 })

/-- A callback invocation performed by the orchestrator; the constructors
are exactly the four callbacks of RealTimeVADCallbacks in part_000. -/
inductive Invocation where
  | frameProcessed (probs : SpeechProbabilities) (frame : List Rat)
  | speechStart
  | vadMisfire
  | speechEnd (audio : List Rat)
deriving DecidableEq, Repr

/-- RealTimeVAD.handleFrameProcessorEvent of part_000: run onFrameProcessed
when both probs and frame are present, then dispatch the message - only
SpeechStart, VADMisfire and SpeechEnd reach a callback, and SpeechEnd only
when its audio is present (the source guards it with a truthiness test,
and a Float32Array is always truthy). -/
def handleFrameProcessorEvent (ev : FPEvent) : List Invocation :=
  (match ev.probs, ev.frame with
   | some pr, some f => [Invocation.frameProcessed pr f]
   | _, _ => []) ++
  (match ev.msg with
   | some Message.speechStart => [Invocation.speechStart]
   | some Message.vadMisfire => [Invocation.vadMisfire]
   | some Message.speechEnd =>
       (match ev.audio with
        | some a => [Invocation.speechEnd a]
        | none => [])
   | _ => [])

/-- The state of the stream orchestrator, class RealTimeVAD of part_000:
the pending sample buffer, the active flag, the optional resampler and the
frame processor (whose modelState embeds the shared Silero model state). -/
structure RealTimeVAD (M : Type) where
  buffer : List Rat
  active : Bool
  resampler : Option Resampler
  frameProcessor : FPState M
deriving DecidableEq, Repr

/-- The constructor of RealTimeVAD in part_000: empty buffer, inactive,
frame processor idle with the model at its initial state, and a resampler
to 16000 Hz exactly when the configured sample rate is not 16000. -/
def RealTimeVAD.new {M : Type} (opts : RealTimeVADOptions) (model : SileroModel M) :
    RealTimeVAD M :=
  { buffer := [], active := false,
    resampler :=
      if opts.sampleRate ≠ 16000 then
        some { nativeSampleRate := opts.sampleRate, targetSampleRate := 16000,
               targetFrameSize := opts.frameSamples, inputBuffer := [] }
      else none,
    frameProcessor :=
      { mode := FPMode.idle, preRoll := [], segment := [], speechFrames := 0,
        modelState := model.initState } }

/-- RealTimeVAD.start of part_000: set active and resume the frame
processor. -/
def RealTimeVAD.start {M : Type} (model : SileroModel M) (v : RealTimeVAD M) :
    RealTimeVAD M :=
  { v with active := true, frameProcessor := v.frameProcessor.resume model }

/-- RealTimeVAD.pause of part_000: clear active, pause the frame processor
and deliver its terminal event. -/
def RealTimeVAD.pause {M : Type} (opts : FrameProcessorOptions) (v : RealTimeVAD M) :
    RealTimeVAD M × List Invocation :=
  let r := v.frameProcessor.pauseOp opts
  ({ v with active := false, frameProcessor := r.1 }, handleFrameProcessorEvent r.2)

/-- The outcome of one orchestrator operation: the next state, the callback
invocations in delivery order, and the frames that were fed to
FrameProcessor.process (recorded for the frame-size properties). -/
structure VADStepResult (M : Type) where
  vad : RealTimeVAD M
  invocations : List Invocation
  framesFed : List (List Rat)
deriving DecidableEq, Repr

/-- Outcome of the framing loop alone. -/
structure ProcessResult (M : Type) where
  fp : FPState M
  rest : List Rat
  invocations : List Invocation
  framesFed : List (List Rat)
deriving DecidableEq, Repr

/-- The while loop of RealTimeVAD.processAudio in part_000: while at least
frameSamples samples are pending, slice one frame off the front, await the
frame processor on it and dispatch its event before taking the next frame.
Each iteration consumes frameSamples ≥ 1 samples (validateOptions enforces
frameSamples > 0), so the pending length bounds the iterations and serves
as structural fuel. -/
def processFramesAux {M : Type} (opts : FrameProcessorOptions) (model : SileroModel M) :
    Nat → FPState M → List Rat → ProcessResult M
  | 0, fp, buf => { fp := fp, rest := buf, invocations := [], framesFed := [] }
  | fuel + 1, fp, buf =>
      if 0 < opts.frameSamples ∧ opts.frameSamples ≤ buf.length then
        let frame := buf.take opts.frameSamples
        let r := fp.process opts model frame
        let rest := processFramesAux opts model fuel r.1 (buf.drop opts.frameSamples)
        { fp := rest.fp, rest := rest.rest,
          invocations := handleFrameProcessorEvent r.2 ++ rest.invocations,
          framesFed := frame :: rest.framesFed }
      else { fp := fp, rest := buf, invocations := [], framesFed := [] }

/-- The framing loop started with sufficient fuel. -/
def processFrames {M : Type} (opts : FrameProcessorOptions) (model : SileroModel M)
    (fp : FPState M) (buf : List Rat) : ProcessResult M :=
  processFramesAux opts model buf.length fp buf

/-- RealTimeVAD.processAudio of part_000: ignored when not active;
otherwise the chunk is piped through the resampler when one exists (the
collected stream chunks are concatenated) or passed through unchanged,
appended to the pending buffer, and the framing loop runs. -/
def RealTimeVAD.processAudio {M : Type} (opts : FrameProcessorOptions)
    (model : SileroModel M) (v : RealTimeVAD M) (audioData : List Rat) :
    VADStepResult M :=
  if v.active = false then { vad := v, invocations := [], framesFed := [] }
  else
    let rp : Option Resampler × List Rat :=
      match v.resampler with
      | some rs =>
          let r := rs.processBuf audioData
          (some r.2, r.1.flatten)
      | none => (none, audioData)
    let res := processFrames opts model v.frameProcessor (v.buffer ++ rp.2)
    { vad := { v with
                 buffer := res.rest, resampler := rp.1, frameProcessor := res.fp },
      invocations := res.invocations, framesFed := res.framesFed }

/-- RealTimeVAD.flush of part_000: when the pending buffer holds some
samples but fewer than a frame, zero-pad it to one frame and process it;
then end the current segment and deliver its event; finally clear the
pending buffer. -/
def RealTimeVAD.flush {M : Type} (opts : FrameProcessorOptions)
    (model : SileroModel M) (v : RealTimeVAD M) : VADStepResult M :=
  let n := v.buffer.length
  let mid : FPState M × List Invocation × List (List Rat) :=
    if 0 < n ∧ n < opts.frameSamples then
      let padded := v.buffer ++ List.replicate (opts.frameSamples - n) 0
      let r := v.frameProcessor.process opts model padded
      (r.1, handleFrameProcessorEvent r.2, [padded])
    else (v.frameProcessor, [], [])
  let r2 := mid.1.endSegmentOp opts
  { vad := { v with buffer := [], frameProcessor := r2.1 },
    invocations := mid.2.1 ++ handleFrameProcessorEvent r2.2,
    framesFed := mid.2.2 }

/-- RealTimeVAD.reset of part_000: clear the pending buffer and reset the
model inference state (the frame-processor mode is untouched). -/
def RealTimeVAD.reset {M : Type} (model : SileroModel M) (v : RealTimeVAD M) :
    RealTimeVAD M :=
  { v with buffer := [],
           frameProcessor := { v.frameProcessor with modelState := model.initState } }

/-- RealTimeVAD.destroy of part_000: pause, then reset. -/
def RealTimeVAD.destroy {M : Type} (opts : FrameProcessorOptions)
    (model : SileroModel M) (v : RealTimeVAD M) : RealTimeVAD M × List Invocation :=
  let p := v.pause opts
  (RealTimeVAD.reset model p.1, p.2)

/-- The operations a caller can drive the orchestrator with. -/
inductive VADOp where
  | start
  | processAudio (chunk : List Rat)
  | flush
  | pause
deriving DecidableEq, Repr

/-- One orchestrator call. -/
def stepOp {M : Type} (opts : FrameProcessorOptions) (model : SileroModel M)
    (v : RealTimeVAD M) : VADOp → VADStepResult M
  | VADOp.start => { vad := v.start model, invocations := [], framesFed := [] }
  | VADOp.processAudio c => v.processAudio opts model c
  | VADOp.flush => v.flush opts model
  | VADOp.pause =>
      let p := v.pause opts
      { vad := p.1, invocations := p.2, framesFed := [] }

/-- A whole run: the calls are performed in order and their invocations and
fed frames are concatenated in delivery order. -/
def runOps {M : Type} (opts : FrameProcessorOptions) (model : SileroModel M)
    (v : RealTimeVAD M) : List VADOp → VADStepResult M
  | [] => { vad := v, invocations := [], framesFed := [] }
  | op :: rest =>
      let r := stepOp opts model v op
      let r2 := runOps opts model r.vad rest
      { vad := r2.vad, invocations := r.invocations ++ r2.invocations,
        framesFed := r.framesFed ++ r2.framesFed }

/-- Number of onSpeechStart invocations. -/
def countStarts (l : List Invocation) : Nat :=
  l.countP fun i => match i with | Invocation.speechStart => true | _ => false

/-- Number of onSpeechEnd invocations. -/
def countEnds (l : List Invocation) : Nat :=
  l.countP fun i => match i with | Invocation.speechEnd _ => true | _ => false

/-- Number of onVADMisfire invocations. -/
def countMisfires (l : List Invocation) : Nat :=
  l.countP fun i => match i with | Invocation.vadMisfire => true | _ => false

/-- One when a speech segment is open in the frame processor, zero
otherwise. -/
def speechBit {M : Type} (s : FPState M) : Nat :=
  if s.mode.isInSpeech then 1 else 0

/-- One when pausing or ending a segment from this state discards an open
segment without any terminal event: a segment is in progress,
submitUserSpeechOnPause is false, and the minimum speech-frame count was
already met (so no misfire is reported either). -/
def terminalDiscard {M : Type} (opts : FrameProcessorOptions) (s : FPState M) : Nat :=
  if s.mode.isInSpeech ∧ opts.submitUserSpeechOnPause = false ∧
      opts.minSpeechFrames ≤ s.speechFrames then 1 else 0

/-- Number of open segments an orchestrator call silently discards:
start() resumes over any open segment; pause() and the endSegment inside
flush() discard exactly in the terminalDiscard situation (for flush,
measured after the optional padded frame). -/
def opDiscard {M : Type} (opts : FrameProcessorOptions) (model : SileroModel M)
    (v : RealTimeVAD M) : VADOp → Nat
  | VADOp.start => speechBit v.frameProcessor
  | VADOp.processAudio _ => 0
  | VADOp.flush =>
      let n := v.buffer.length
      let fpMid :=
        if 0 < n ∧ n < opts.frameSamples then
          (v.frameProcessor.process opts model
            (v.buffer ++ List.replicate (opts.frameSamples - n) 0)).1
        else v.frameProcessor
      terminalDiscard opts fpMid
  | VADOp.pause => terminalDiscard opts v.frameProcessor

/-- Total number of silently discarded segments along a run. -/
def runDiscards {M : Type} (opts : FrameProcessorOptions) (model : SileroModel M)
    (v : RealTimeVAD M) : List VADOp → Nat
  | [] => 0
  | op :: rest =>
      opDiscard opts model v op +
        runDiscards opts model (stepOp opts model v op).vad rest

/-- A concrete stub model with state type Unit returning a fixed high
speech probability, used to evaluate runs on concrete inputs. -/
def stubModel : SileroModel Unit :=
  { initState := (),
    step := fun _ _ => ({ isSpeech := mkRat 9 10, notSpeech := mkRat 1 10 }, ()) }

/-- A concrete stub model returning a fixed low speech probability. -/
def stubModelLow : SileroModel Unit :=
  { initState := (),
    step := fun _ _ => ({ isSpeech := mkRat 1 10, notSpeech := mkRat 9 10 }, ()) }

/-- Concrete options used by the witnesses: one-sample frames so that tiny
runs exercise the machine, the documented thresholds, and
submitUserSpeechOnPause off as in the defaults. -/
def optsEx : RealTimeVADOptions :=
  { frameSamples := 1, positiveSpeechThreshold := mkRat 1 2,
    negativeSpeechThreshold := mkRat 7 20, redemptionFrames := 2,
    preSpeechPadFrames := 1, minSpeechFrames := 3,
    submitUserSpeechOnPause := false, sampleRate := 16000 }

/-- One processed frame keeps the event balance: the starts it emits plus
the previously open segment equal the ends and misfires it emits plus the
segment left open. -/
theorem process_counts {M : Type} (opts : FrameProcessorOptions) (model : SileroModel M)
    (s : FPState M) (frame : List Rat) :
    countStarts (handleFrameProcessorEvent (s.process opts model frame).2) + speechBit s =
      countEnds (handleFrameProcessorEvent (s.process opts model frame).2) +
        countMisfires (handleFrameProcessorEvent (s.process opts model frame).2) +
        speechBit (s.process opts model frame).1 := by
  rcases s with ⟨mode, pre, seg, sf, ms⟩
  cases mode <;>
    simp only [FPState.process] <;>
    (try split_ifs) <;>
    simp [handleFrameProcessorEvent, countStarts, countEnds, countMisfires, speechBit,
      FPMode.isInSpeech]

/-- The terminal event of pause and endSegment closes the open segment with
one end, one misfire or one silent discard. -/
theorem terminal_counts {M : Type} (opts : FrameProcessorOptions) (s : FPState M) :
    countStarts (handleFrameProcessorEvent (s.terminalEvent opts)) + speechBit s =
      countEnds (handleFrameProcessorEvent (s.terminalEvent opts)) +
        countMisfires (handleFrameProcessorEvent (s.terminalEvent opts)) +
        terminalDiscard opts s := by
  rcases s with ⟨mode, pre, seg, sf, ms⟩
  simp only [FPState.terminalEvent, terminalDiscard, speechBit]
  split_ifs <;>
    simp_all [handleFrameProcessorEvent, emptyFPEvent, countStarts, countEnds,
      countMisfires] <;>
    omega

/-- The state left by pause is never mid-speech. -/
theorem speechBit_pauseOp {M : Type} (opts : FrameProcessorOptions) (s : FPState M) :
    speechBit (s.pauseOp opts).1 = 0 := rfl

/-- The state left by endSegment is never mid-speech. -/
theorem speechBit_endSegmentOp {M : Type} (opts : FrameProcessorOptions) (s : FPState M) :
    speechBit (s.endSegmentOp opts).1 = 0 := rfl

/-- The state left by resume is never mid-speech. -/
theorem speechBit_resume {M : Type} (model : SileroModel M) (s : FPState M) :
    speechBit (s.resume model) = 0 := rfl

/-- The event returned by pause is the terminal event. -/
theorem pauseOp_snd {M : Type} (opts : FrameProcessorOptions) (s : FPState M) :
    (s.pauseOp opts).2 = s.terminalEvent opts := rfl

/-- The event returned by endSegment is the terminal event. -/
theorem endSegmentOp_snd {M : Type} (opts : FrameProcessorOptions) (s : FPState M) :
    (s.endSegmentOp opts).2 = s.terminalEvent opts := rfl

/-- The framing loop keeps the event balance frame by frame. -/
theorem processFramesAux_counts {M : Type} (opts : FrameProcessorOptions)
    (model : SileroModel M) :
    ∀ (fuel : Nat) (fp : FPState M) (buf : List Rat),
      countStarts (processFramesAux opts model fuel fp buf).invocations + speechBit fp =
        countEnds (processFramesAux opts model fuel fp buf).invocations +
          countMisfires (processFramesAux opts model fuel fp buf).invocations +
          speechBit (processFramesAux opts model fuel fp buf).fp := by
  intro fuel
  induction fuel with
  | zero => intro fp buf; simp [processFramesAux, countStarts, countEnds, countMisfires]
  | succ n ih =>
      intro fp buf
      simp only [processFramesAux]
      split_ifs with h
      · have h1 := process_counts opts model fp (buf.take opts.frameSamples)
        have h2 := ih (fp.process opts model (buf.take opts.frameSamples)).1
          (buf.drop opts.frameSamples)
        simp only [countStarts, countEnds, countMisfires, List.countP_append] at h1 h2 ⊢
        omega
      · simp [countStarts, countEnds, countMisfires]

/-- Every orchestrator call keeps the event balance, with opDiscard counting
the silently dropped segments. -/
theorem stepOp_counts {M : Type} (opts : FrameProcessorOptions) (model : SileroModel M)
    (v : RealTimeVAD M) (op : VADOp) :
    countStarts (stepOp opts model v op).invocations + speechBit v.frameProcessor =
      countEnds (stepOp opts model v op).invocations +
        countMisfires (stepOp opts model v op).invocations +
        speechBit (stepOp opts model v op).vad.frameProcessor +
        opDiscard opts model v op := by
  cases op with
  | start =>
      simp [stepOp, opDiscard, RealTimeVAD.start, FPState.resume, countStarts, countEnds,
        countMisfires, speechBit, FPMode.isInSpeech]
  | processAudio c =>
      simp only [stepOp, RealTimeVAD.processAudio, opDiscard]
      split_ifs with h
      · simp [countStarts, countEnds, countMisfires]
      · rcases hres : v.resampler with _ | rs <;>
          simp only [hres] <;>
          · first
            | simpa [processFrames] using
                processFramesAux_counts opts model (v.buffer ++ c).length
                  v.frameProcessor (v.buffer ++ c)
            | simpa [processFrames] using
                processFramesAux_counts opts model
                  (v.buffer ++ ((rs.processBuf c).1.flatten)).length
                  v.frameProcessor (v.buffer ++ ((rs.processBuf c).1.flatten))
  | flush =>
      simp only [stepOp, RealTimeVAD.flush, opDiscard, endSegmentOp_snd]
      split_ifs with h
      · have h1 := process_counts opts model v.frameProcessor
          (v.buffer ++ List.replicate (opts.frameSamples - v.buffer.length) 0)
        have h2 := terminal_counts opts
          (v.frameProcessor.process opts model
            (v.buffer ++ List.replicate (opts.frameSamples - v.buffer.length) 0)).1
        simp only [countStarts, countEnds, countMisfires, List.countP_append,
          speechBit_endSegmentOp] at h1 h2 ⊢
        omega
      · have h2 := terminal_counts opts v.frameProcessor
        simp only [countStarts, countEnds, countMisfires, List.countP_append,
          List.countP_nil, List.nil_append, speechBit_endSegmentOp] at h2 ⊢
        omega
  | pause =>
      have h2 := terminal_counts opts v.frameProcessor
      simp only [stepOp, RealTimeVAD.pause, pauseOp_snd, countStarts, countEnds,
        countMisfires, speechBit_pauseOp, opDiscard] at h2 ⊢
      omega

/-- A whole run keeps the event balance. -/
theorem runOps_counts {M : Type} (opts : FrameProcessorOptions) (model : SileroModel M) :
    ∀ (ops : List VADOp) (v : RealTimeVAD M),
      countStarts (runOps opts model v ops).invocations + speechBit v.frameProcessor =
        countEnds (runOps opts model v ops).invocations +
          countMisfires (runOps opts model v ops).invocations +
          speechBit (runOps opts model v ops).vad.frameProcessor +
          runDiscards opts model v ops := by
  intro ops
  induction ops with
  | nil => intro v; simp [runOps, runDiscards, countStarts, countEnds, countMisfires]
  | cons op rest ih =>
      intro v
      have h1 := stepOp_counts opts model v op
      have h2 := ih (stepOp opts model v op).vad
      simp only [runOps, runDiscards, countStarts, countEnds, countMisfires,
        List.countP_append] at h1 h2 ⊢
      omega

/-- C1, counterexample: in the concrete run start(); processAudio([1]) with
a model reporting high speech probability, the quiescent point after the
second call has one SpeechStart but no SpeechEnd and no VADMisfire, so the
claimed equality (and the claimed exact later match for every SpeechStart)
fails as stated. -/
theorem c1_counterexample :
    ¬ (countStarts (runOps optsEx.toFrameProcessorOptions stubModel
          (RealTimeVAD.new optsEx stubModel)
          [VADOp.start, VADOp.processAudio [1]]).invocations =
        countEnds (runOps optsEx.toFrameProcessorOptions stubModel
          (RealTimeVAD.new optsEx stubModel)
          [VADOp.start, VADOp.processAudio [1]]).invocations +
        countMisfires (runOps optsEx.toFrameProcessorOptions stubModel
          (RealTimeVAD.new optsEx stubModel)
          [VADOp.start, VADOp.processAudio [1]]).invocations) := by
  decide

/-- C1 (amended): at every quiescent point of every run, the number of
SpeechStart invocations equals the number of SpeechEnd invocations plus the
number of VADMisfire invocations, plus one for a segment still open at that
point, plus the number of segments the run silently discarded (a resume over
an open segment, or a pause/flush over an open segment that already met
minSpeechFrames while submitUserSpeechOnPause is false); in particular
SpeechEnd and VADMisfire invocations never outnumber SpeechStart
invocations. -/
theorem c1_event_balance (M : Type) (opts : RealTimeVADOptions)
    (model : SileroModel M) (ops : List VADOp) :
    countStarts (runOps opts.toFrameProcessorOptions model
        (RealTimeVAD.new opts model) ops).invocations =
      countEnds (runOps opts.toFrameProcessorOptions model
          (RealTimeVAD.new opts model) ops).invocations +
        countMisfires (runOps opts.toFrameProcessorOptions model
          (RealTimeVAD.new opts model) ops).invocations +
        speechBit (runOps opts.toFrameProcessorOptions model
          (RealTimeVAD.new opts model) ops).vad.frameProcessor +
        runDiscards opts.toFrameProcessorOptions model
          (RealTimeVAD.new opts model) ops ∧
    countEnds (runOps opts.toFrameProcessorOptions model
        (RealTimeVAD.new opts model) ops).invocations +
      countMisfires (runOps opts.toFrameProcessorOptions model
        (RealTimeVAD.new opts model) ops).invocations ≤
      countStarts (runOps opts.toFrameProcessorOptions model
        (RealTimeVAD.new opts model) ops).invocations := by
  have h := runOps_counts opts.toFrameProcessorOptions model ops
    (RealTimeVAD.new opts model)
  have hbit : speechBit (RealTimeVAD.new opts model).frameProcessor = 0 := rfl
  rw [hbit] at h
  omega

/-- Every frame the framing loop feeds to the frame processor is a slice of
exactly frameSamples samples. -/
theorem processFramesAux_framesFed_length {M : Type} (opts : FrameProcessorOptions)
    (model : SileroModel M) :
    ∀ (fuel : Nat) (fp : FPState M) (buf : List Rat),
      ∀ f ∈ (processFramesAux opts model fuel fp buf).framesFed,
        f.length = opts.frameSamples := by
  intro fuel
  induction fuel with
  | zero => intro fp buf f hf; simp [processFramesAux] at hf
  | succ n ih =>
      intro fp buf f hf
      simp only [processFramesAux] at hf
      split_ifs at hf with h
      · simp only [List.mem_cons] at hf
        rcases hf with hf | hf
        · subst hf
          simp [List.length_take]
          omega
        · exact ih _ _ f hf
      · simp at hf

/-- Every frame an orchestrator call feeds to the frame processor has
length exactly frameSamples. -/
theorem stepOp_framesFed_length {M : Type} (opts : FrameProcessorOptions)
    (model : SileroModel M) (v : RealTimeVAD M) (op : VADOp) :
    ∀ f ∈ (stepOp opts model v op).framesFed, f.length = opts.frameSamples := by
  cases op with
  | start => intro f hf; simp [stepOp] at hf
  | processAudio c =>
      intro f hf
      simp only [stepOp, RealTimeVAD.processAudio] at hf
      split_ifs at hf with h
      · simp at hf
      · exact processFramesAux_framesFed_length opts model _ _ _ f (by simpa [processFrames] using hf)
  | flush =>
      intro f hf
      simp only [stepOp, RealTimeVAD.flush] at hf
      split_ifs at hf with h
      · simp only [List.mem_singleton] at hf
        subst hf
        simp [List.length_replicate]
        omega
      · simp at hf
  | pause => intro f hf; simp [stepOp] at hf

/-- C2: in every run (any sequence of orchestrator calls on any state),
every frame handed to FrameProcessor.process has length exactly
frameSamples: the greedy framing loop slices exactly frameSamples samples
per frame, and the residual frame processed by flush is zero-padded to
exactly frameSamples samples. -/
theorem c2_frame_invariance (M : Type) (opts : FrameProcessorOptions)
    (model : SileroModel M) (v : RealTimeVAD M) (ops : List VADOp) :
    ∀ f ∈ (runOps opts model v ops).framesFed, f.length = opts.frameSamples := by
  induction ops generalizing v with
  | nil => intro f hf; simp [runOps] at hf
  | cons op rest ih =>
      intro f hf
      simp only [runOps, List.mem_append] at hf
      rcases hf with hf | hf
      · exact stepOp_framesFed_length opts model v op f hf
      · exact ih _ f hf

/-- C2, witness: a concrete run feeding a three-sample chunk and flushing
with two-sample frames feeds frames of exactly the configured length. -/
theorem c2_frame_invariance_witness :
    ([1, 2] : List Rat).length =
      ({ optsEx.toFrameProcessorOptions with frameSamples := 2 }).frameSamples :=
  c2_frame_invariance Unit { optsEx.toFrameProcessorOptions with frameSamples := 2 }
    stubModel
    (RealTimeVAD.new { optsEx with frameSamples := 2 } stubModel)
    [VADOp.start, VADOp.processAudio [1, 2, 3], VADOp.flush]
    [1, 2] (by decide)

/-- Declarative greedy framing: the successive frameSamples-slices of a
sample list (fuel bounds the iterations, as in the loop). -/
def chunkFramesAux (fs : Nat) : Nat → List Rat → List (List Rat)
  | 0, _ => []
  | fuel + 1, l =>
      if 0 < fs ∧ fs ≤ l.length then l.take fs :: chunkFramesAux fs fuel (l.drop fs)
      else []

/-- Declarative greedy framing of a whole list. -/
def chunkFrames (fs : Nat) (l : List Rat) : List (List Rat) :=
  chunkFramesAux fs l.length l

/-- The residue the declarative greedy framing leaves. -/
def chunkRestAux (fs : Nat) : Nat → List Rat → List Rat
  | 0, l => l
  | fuel + 1, l =>
      if 0 < fs ∧ fs ≤ l.length then chunkRestAux fs fuel (l.drop fs) else l

/-- The residue of the declarative greedy framing of a whole list. -/
def chunkRest (fs : Nat) (l : List Rat) : List Rat :=
  chunkRestAux fs l.length l

/-- The strictly sequential reference semantics: process the given frames
one after the other, dispatching the event of each frame before the next
frame is processed. -/
def foldFrames {M : Type} (opts : FrameProcessorOptions) (model : SileroModel M)
    (fp : FPState M) : List (List Rat) → FPState M × List Invocation
  | [] => (fp, [])
  | f :: rest =>
      let r := fp.process opts model f
      let r2 := foldFrames opts model r.1 rest
      (r2.1, handleFrameProcessorEvent r.2 ++ r2.2)

/-- The samples processAudio forwards to the framing loop: the resampler
output when a resampler exists, the chunk itself otherwise. -/
def preprocessSamples (rsOpt : Option Resampler) (chunk : List Rat) : List Rat :=
  match rsOpt with
  | some rs => (rs.processBuf chunk).1.flatten
  | none => chunk

/-- The fused framing loop equals the declarative framing followed by the
strictly sequential fold. -/
theorem processFramesAux_eq_fold {M : Type} (opts : FrameProcessorOptions)
    (model : SileroModel M) :
    ∀ (fuel : Nat) (fp : FPState M) (buf : List Rat),
      processFramesAux opts model fuel fp buf =
        { fp := (foldFrames opts model fp (chunkFramesAux opts.frameSamples fuel buf)).1,
          rest := chunkRestAux opts.frameSamples fuel buf,
          invocations :=
            (foldFrames opts model fp (chunkFramesAux opts.frameSamples fuel buf)).2,
          framesFed := chunkFramesAux opts.frameSamples fuel buf } := by
  intro fuel
  induction fuel with
  | zero =>
      intro fp buf
      simp [processFramesAux, chunkFramesAux, chunkRestAux, foldFrames]
  | succ n ih =>
      intro fp buf
      simp only [processFramesAux, chunkFramesAux, chunkRestAux]
      split_ifs with h
      · simp [ih, foldFrames]
      · simp [foldFrames]

/-- C3: on an active instance, processAudio is the declarative greedy
framing of the pending buffer extended by the (possibly resampled) chunk,
followed by the strictly sequential per-frame fold: the frames are
processed in submission order, the event of each frame is dispatched
before the next frame is taken, and the invocation list handed back with
the resolved call carries the events of all frames of the chunk. -/
theorem c3_processing_serialized (M : Type) (opts : FrameProcessorOptions)
    (model : SileroModel M) (v : RealTimeVAD M) (chunk : List Rat)
    (hact : v.active = true) :
    (v.processAudio opts model chunk).invocations =
      (foldFrames opts model v.frameProcessor
        (chunkFrames opts.frameSamples
          (v.buffer ++ preprocessSamples v.resampler chunk))).2 ∧
    (v.processAudio opts model chunk).framesFed =
      chunkFrames opts.frameSamples
        (v.buffer ++ preprocessSamples v.resampler chunk) ∧
    (v.processAudio opts model chunk).vad.frameProcessor =
      (foldFrames opts model v.frameProcessor
        (chunkFrames opts.frameSamples
          (v.buffer ++ preprocessSamples v.resampler chunk))).1 ∧
    (v.processAudio opts model chunk).vad.buffer =
      chunkRest opts.frameSamples (v.buffer ++ preprocessSamples v.resampler chunk) := by
  simp only [RealTimeVAD.processAudio, hact, Bool.true_eq_false, if_false]
  rcases hres : v.resampler with _ | rs <;>
    simp only [hres, preprocessSamples] <;>
    simp [processFrames, processFramesAux_eq_fold, chunkFrames, chunkRest]

/-- C3, witness: the characterization evaluated on a started instance fed a
concrete chunk. -/
theorem c3_processing_serialized_witness :
    (((RealTimeVAD.new optsEx stubModel).start stubModel).processAudio
        optsEx.toFrameProcessorOptions stubModel [1, 2]).invocations =
      (foldFrames optsEx.toFrameProcessorOptions stubModel
        ((RealTimeVAD.new optsEx stubModel).start stubModel).frameProcessor
        (chunkFrames optsEx.toFrameProcessorOptions.frameSamples
          (((RealTimeVAD.new optsEx stubModel).start stubModel).buffer ++
            preprocessSamples
              ((RealTimeVAD.new optsEx stubModel).start stubModel).resampler
              [1, 2]))).2 :=
  (c3_processing_serialized Unit optsEx.toFrameProcessorOptions stubModel
    ((RealTimeVAD.new optsEx stubModel).start stubModel) [1, 2] rfl).1

/-- C4: flush always clears the pending buffer and always ends the current
segment; exactly when the pending buffer holds some samples but fewer than
frameSamples, that buffer zero-padded to frameSamples is processed as one
frame before the endSegment call, and its event is delivered before the
endSegment event. -/
theorem c4_flush_behaviour (M : Type) (opts : FrameProcessorOptions)
    (model : SileroModel M) (v : RealTimeVAD M) :
    (v.flush opts model).vad.buffer = [] ∧
    (v.flush opts model).framesFed =
      (if 0 < v.buffer.length ∧ v.buffer.length < opts.frameSamples then
        [v.buffer ++ List.replicate (opts.frameSamples - v.buffer.length) 0]
       else []) ∧
    (v.flush opts model).vad.frameProcessor =
      ((if 0 < v.buffer.length ∧ v.buffer.length < opts.frameSamples then
          (v.frameProcessor.process opts model
            (v.buffer ++ List.replicate (opts.frameSamples - v.buffer.length) 0)).1
        else v.frameProcessor).endSegmentOp opts).1 ∧
    (v.flush opts model).invocations =
      (if 0 < v.buffer.length ∧ v.buffer.length < opts.frameSamples then
        handleFrameProcessorEvent
          (v.frameProcessor.process opts model
            (v.buffer ++ List.replicate (opts.frameSamples - v.buffer.length) 0)).2
       else []) ++
      handleFrameProcessorEvent
        ((if 0 < v.buffer.length ∧ v.buffer.length < opts.frameSamples then
            (v.frameProcessor.process opts model
              (v.buffer ++ List.replicate (opts.frameSamples - v.buffer.length) 0)).1
          else v.frameProcessor).terminalEvent opts) := by
  simp only [RealTimeVAD.flush, endSegmentOp_snd]
  split_ifs with h <;> simp

/-- C5: a freshly constructed instance is inactive, and processAudio on any
inactive instance leaves the whole state unchanged, invokes no callback and
feeds no frame. -/
theorem c5_paused_processAudio_noop (M : Type) (opts : RealTimeVADOptions)
    (model : SileroModel M) :
    (RealTimeVAD.new opts model).active = false ∧
    ∀ (v : RealTimeVAD M) (chunk : List Rat), v.active = false →
      v.processAudio opts.toFrameProcessorOptions model chunk =
        { vad := v, invocations := [], framesFed := [] } := by
  refine ⟨rfl, ?_⟩
  intro v chunk h
  simp [RealTimeVAD.processAudio, h]

/-- C5, witness: a fresh instance ignores a concrete chunk. -/
theorem c5_paused_processAudio_noop_witness :
    (RealTimeVAD.new optsEx stubModel).processAudio
        optsEx.toFrameProcessorOptions stubModel [1] =
      { vad := RealTimeVAD.new optsEx stubModel, invocations := [], framesFed := [] } :=
  (c5_paused_processAudio_noop Unit optsEx stubModel).2
    (RealTimeVAD.new optsEx stubModel) [1] rfl

/-- C6: the constructor builds a resampler exactly when the configured
sample rate differs from 16000, and on an instance without a resampler the
samples forwarded to the framing loop are the input samples unchanged. -/
theorem c6_resampler_iff_non16k (M : Type) (opts : RealTimeVADOptions)
    (model : SileroModel M) :
    ((RealTimeVAD.new opts model : RealTimeVAD M).resampler = none ↔
      opts.sampleRate = 16000) ∧
    ∀ (v : RealTimeVAD M) (chunk : List Rat), v.active = true → v.resampler = none →
      v.processAudio opts.toFrameProcessorOptions model chunk =
        { vad := { v with
                     buffer := (processFrames opts.toFrameProcessorOptions model
                       v.frameProcessor (v.buffer ++ chunk)).rest,
                     resampler := none,
                     frameProcessor := (processFrames opts.toFrameProcessorOptions model
                       v.frameProcessor (v.buffer ++ chunk)).fp },
          invocations := (processFrames opts.toFrameProcessorOptions model
            v.frameProcessor (v.buffer ++ chunk)).invocations,
          framesFed := (processFrames opts.toFrameProcessorOptions model
            v.frameProcessor (v.buffer ++ chunk)).framesFed } := by
  constructor
  · simp only [RealTimeVAD.new]
    split_ifs with h <;> simp_all
  · intro v chunk hact hres
    simp [RealTimeVAD.processAudio, hact, hres]

/-- C6, witness: at 16000 Hz no resampler is built and a chunk passes
through unchanged on a started instance. -/
theorem c6_resampler_iff_non16k_witness :
    ((RealTimeVAD.new optsEx stubModel : RealTimeVAD Unit).resampler = none ↔
      optsEx.sampleRate = 16000) ∧
    ((RealTimeVAD.new optsEx stubModel).start stubModel).processAudio
        optsEx.toFrameProcessorOptions stubModel [1] =
      { vad := { (RealTimeVAD.new optsEx stubModel).start stubModel with
                   buffer := (processFrames optsEx.toFrameProcessorOptions stubModel
                     ((RealTimeVAD.new optsEx stubModel).start stubModel).frameProcessor
                     (((RealTimeVAD.new optsEx stubModel).start stubModel).buffer ++ [1])).rest,
                   resampler := none,
                   frameProcessor := (processFrames optsEx.toFrameProcessorOptions stubModel
                     ((RealTimeVAD.new optsEx stubModel).start stubModel).frameProcessor
                     (((RealTimeVAD.new optsEx stubModel).start stubModel).buffer ++ [1])).fp },
        invocations := (processFrames optsEx.toFrameProcessorOptions stubModel
          ((RealTimeVAD.new optsEx stubModel).start stubModel).frameProcessor
          (((RealTimeVAD.new optsEx stubModel).start stubModel).buffer ++ [1])).invocations,
        framesFed := (processFrames optsEx.toFrameProcessorOptions stubModel
          ((RealTimeVAD.new optsEx stubModel).start stubModel).frameProcessor
          (((RealTimeVAD.new optsEx stubModel).start stubModel).buffer ++ [1])).framesFed } :=
  ⟨(c6_resampler_iff_non16k Unit optsEx stubModel).1,
   (c6_resampler_iff_non16k Unit optsEx stubModel).2
     ((RealTimeVAD.new optsEx stubModel).start stubModel) [1] rfl rfl⟩

/-- C7: destroy is exactly pause followed by reset, and the resulting state
is inactive with an empty pending buffer and the model at its initial
state; the invocations it delivers are those of the terminal event of the
frame processor. -/
theorem c7_destroy_is_pause_then_reset (M : Type) (opts : FrameProcessorOptions)
    (model : SileroModel M) (v : RealTimeVAD M) :
    v.destroy opts model =
      (RealTimeVAD.reset model (v.pause opts).1, (v.pause opts).2) ∧
    (v.destroy opts model).1.active = false ∧
    (v.destroy opts model).1.buffer = [] ∧
    (v.destroy opts model).1.frameProcessor.modelState = model.initState ∧
    (v.destroy opts model).2 =
      handleFrameProcessorEvent (v.frameProcessor.terminalEvent opts) := by
  exact ⟨rfl, rfl, rfl, rfl, rfl⟩

/-- C8: reset is idempotent - applying it twice gives the same state as
applying it once, and that state has an empty pending buffer and the model
at its initial inference state. -/
theorem c8_reset_idempotent (M : Type) (model : SileroModel M) (v : RealTimeVAD M) :
    RealTimeVAD.reset model (RealTimeVAD.reset model v) = RealTimeVAD.reset model v ∧
    (RealTimeVAD.reset model v).buffer = [] ∧
    (RealTimeVAD.reset model v).frameProcessor.modelState = model.initState := by
  exact ⟨rfl, rfl, rfl⟩

/-- C9: the dispatch of the stream orchestrator treats a SpeechRealStart
message exactly as no message at all, and an event carrying it can only
ever produce onFrameProcessed invocations - no callback for SpeechRealStart
exists in the callback surface of part_000. -/
theorem c9_speechRealStart_not_delivered (ev : FPEvent)
    (h : ev.msg = some Message.speechRealStart) :
    handleFrameProcessorEvent ev = handleFrameProcessorEvent { ev with msg := none } ∧
    ∀ i ∈ handleFrameProcessorEvent ev,
      ∃ pr f, i = Invocation.frameProcessed pr f := by
  rcases ev with ⟨po, fo, mo, ao⟩
  simp only at h
  subst h
  constructor
  · rfl
  · intro i hi
    cases po <;> cases fo <;>
      simp [handleFrameProcessorEvent] at hi <;>
      exact ⟨_, _, hi⟩

/-- C9, witness: a concrete SpeechRealStart event is dispatched exactly as
an event with no message. -/
theorem c9_speechRealStart_not_delivered_witness :
    handleFrameProcessorEvent
        { probs := some { isSpeech := mkRat 9 10, notSpeech := mkRat 1 10 },
          frame := some [1], msg := some Message.speechRealStart, audio := none } =
      handleFrameProcessorEvent
        { probs := some { isSpeech := mkRat 9 10, notSpeech := mkRat 1 10 },
          frame := some [1], msg := none, audio := none } :=
  (c9_speechRealStart_not_delivered
    { probs := some { isSpeech := mkRat 9 10, notSpeech := mkRat 1 10 },
      frame := some [1], msg := some Message.speechRealStart, audio := none } rfl).1

/-- C10: onSpeechEnd is only invoked with an audio payload that the event
carries; a SpeechEnd event without audio is dispatched exactly as an event
with no message (silently dropped); and onFrameProcessed is invoked exactly
when both the probabilities and the frame are present. -/
theorem c10_dispatch_guards (ev : FPEvent) :
    (∀ a, Invocation.speechEnd a ∈ handleFrameProcessorEvent ev → ev.audio = some a) ∧
    (ev.msg = some Message.speechEnd → ev.audio = none →
      handleFrameProcessorEvent ev = handleFrameProcessorEvent { ev with msg := none }) ∧
    (∀ pr f, Invocation.frameProcessed pr f ∈ handleFrameProcessorEvent ev ↔
      (ev.probs = some pr ∧ ev.frame = some f)) := by
  rcases ev with ⟨po, fo, mo, ao⟩
  cases po <;> cases fo <;> rcases mo with _ | m <;> (try cases m) <;> cases ao <;>
    simp [handleFrameProcessorEvent, eq_comm]

/-- C10, witness: a concrete SpeechEnd event without audio is dispatched
exactly as an event with no message. -/
theorem c10_dispatch_guards_witness :
    handleFrameProcessorEvent
        { probs := none, frame := none, msg := some Message.speechEnd, audio := none } =
      handleFrameProcessorEvent
        { probs := none, frame := none, msg := none, audio := none } :=
  (c10_dispatch_guards
    { probs := none, frame := none, msg := some Message.speechEnd, audio := none }).2.1
    rfl rfl

end VadNode
